import Mathlib

/-
Verification development for the deq-tanks-skid field-mapping and
transformation engine (src/deq_tanks/config.py and src/deq_tanks/helpers.py).

The shallow embedding models:
  - JSON-like cell values (`Value`): null, booleans, integers, strings and
    nested mappings.  JSON floating-point numbers are out of scope (no claim
    depends on them); numeric literals are modelled as integers.
  - Python exceptions that the embedded code can raise (`PyError`).
  - `config.FieldConfig.__init__` as `FieldConfig.init`, returning
    `Except PyError FieldConfig`.
  - the pure dataframe pipeline inlined in
    `helpers.SalesForceRecords.extract_data_from_salesforce` (rename the
    columns, derive per field config, drop the flattened parents) over a
    dataframe model `DF` (an ordered list of named columns).
  - `helpers.convert_to_int` and `helpers.flatten`.
  - `helpers.SalesForceRecords._build_columns_string` and the SOQL query
    construction.

The palletjack dtype conversions (`switch_to_nullable_int`,
`switch_to_float`, `switch_to_datetime`) are external collaborators that do
not change the column list; they are not modelled.
-/

namespace DeqTanks

/-- A cell value as it appears in a dataframe fetched from the Salesforce
REST API: null, boolean, integer, string, or a nested JSON mapping.
JSON floats are not modelled (no claim depends on them). -/
inductive Value where
  | vNull : Value
  | vBool : Bool → Value
  | vInt : Int → Value
  | vStr : String → Value
  | vDict : List (String × Value) → Value

/-- The Python exceptions that the embedded code can raise. -/
inductive PyError where
  | valueError : String → PyError
  | typeError : String → PyError
  | keyError : String → PyError
  | indexError : String → PyError
  | attributeError : String → PyError

/-- Short type name of a value, as Python `type(x).__name__` renders it. -/
def pyTypeShort : Value → String
  | .vNull => "NoneType"
  | .vBool _ => "bool"
  | .vInt _ => "int"
  | .vStr _ => "str"
  | .vDict _ => "dict"

/-- Rendering of `type(x)` as interpolated by an f-string: `<class 'str'>`. -/
def pyTypeName (v : Value) : String :=
  "<class \x27" ++ pyTypeShort v ++ "\x27>"

mutual

/-- Python `repr` of a value (the rendering used for values inside the
`str` of a dict).  String escaping inside `repr` is not modelled. -/
def pyRepr : Value → String
  | .vNull => "None"
  | .vBool b => if b then "True" else "False"
  | .vInt n => toString n
  | .vStr s => "\x27" ++ s ++ "\x27"
  | .vDict m => "\x7b" ++ String.intercalate ", " (pyReprPairs m) ++ "\x7d"

/-- Helper for `pyRepr`: renders the key/value pairs of a dict. -/
def pyReprPairs : List (String × Value) → List String
  | [] => []
  | p :: rest => ("\x27" ++ p.1 ++ "\x27: " ++ pyRepr p.2) :: pyReprPairs rest

end

/-- Python `str` of a value: identity on strings, `repr`-like otherwise
(`str(None) = "None"`, `str(123) = "123"`). -/
def pyStr : Value → String
  | .vStr s => s
  | v => pyRepr v

/-- ASCII whitespace, as stripped by Python `int()` around a numeric
literal (non-ASCII whitespace is not modelled). -/
def isPySpace (c : Char) : Bool :=
  c = ' ' || c = '\t' || c = '\n' || c = '\r' || c = '\x0b' || c = '\x0c'

/-- Python `int(s)` parsing of a base-10 string: optional surrounding
whitespace, optional sign, then at least one ASCII digit.  (PEP-515 digit
underscores and non-ASCII digits are not modelled.) -/
def parseIntBase10 (s : String) : Option Int :=
  let t := ((s.toList.dropWhile isPySpace).reverse.dropWhile isPySpace).reverse
  let core :=
    match t with
    | '-' :: rest => rest
    | '+' :: rest => rest
    | _ => t
  if core.isEmpty then none
  else if core.all Char.isDigit then
    let mag : Nat := core.foldl (fun acc c => acc * 10 + (c.toNat - 48)) 0
    match t with
    | '-' :: _ => some (-(mag : Int))
    | _ => some (mag : Int)
  else none

/-- The Python builtin `int(x)`: accepts strings (base-10 parse, raising
`ValueError` on failure) and real numbers (booleans count as 1/0); any other
argument raises `TypeError`. -/
def pyInt : Value → Except PyError Int
  | .vInt n => .ok n
  | .vBool b => .ok (if b then 1 else 0)
  | .vStr s =>
    match parseIntBase10 s with
    | some n => .ok n
    | none =>
      .error (.valueError
        ("invalid literal for int() with base 10: \x27" ++ s ++ "\x27"))
  | v =>
    .error (.typeError
      ("int() argument must be a string, a bytes-like object or a real number, not \x27"
        ++ pyTypeShort v ++ "\x27"))

/-- Embedding of `helpers.convert_to_int`: `None` passes through, otherwise
`int(s)` is attempted and only `ValueError` is caught, yielding the sentinel
`-1`; any other exception (a `TypeError` for a non-numeric, non-string
argument) propagates. -/
def convert_to_int (s : Value) : Except PyError Value :=
  match s with
  | .vNull => .ok .vNull
  | v =>
    match pyInt v with
    | .ok n => .ok (.vInt n)
    | .error (.valueError _) => .ok (.vInt (-1))
    | .error e => .error e

/-- Key lookup in a JSON mapping (first match, as in a Python dict whose
keys are unique). -/
def dictFind : List (String × Value) → String → Option Value
  | [], _ => none
  | p :: rest, k => if p.1 == k then some p.2 else dictFind rest k

/-- Embedding of `helpers.flatten`: `None` maps to `None`; a non-dict raises
`ValueError`; a dict lacking the child key raises `ValueError`; otherwise
the value at the child key is returned. -/
def flatten (x : Value) (child_field : String) : Except PyError Value :=
  match x with
  | .vNull => .ok .vNull
  | .vDict m =>
    match dictFind m child_field with
    | some v => .ok v
    | none =>
      .error (.valueError
        ("Expected a child field \x27" ++ child_field
          ++ "\x27, but not found in the dictionary"))
  | v =>
    .error (.valueError ("Expected a dictionary, got " ++ pyTypeName v))

/-- Grouping of a character list by a separator (auxiliary for `pySplit`):
every separator occurrence starts a new group, so `n` separators yield
`n + 1` groups. -/
def splitGroups (sep : Char) : List Char → List (List Char)
  | [] => [[]]
  | c :: rest =>
    match splitGroups sep rest with
    | [] => [[]]
    | g :: gs => if c = sep then [] :: g :: gs else (c :: g) :: gs

/-- Python `s.split(sep)` for a one-character separator (the pipeline only
splits on `"."`): the list of the runs between separator occurrences,
keeping empty runs, with `[s]` when the separator does not occur. -/
def pySplit (s : String) (sep : Char) : List String :=
  (splitGroups sep s.toList).map (fun g => String.mk g)

/-- A Python-format-style template, pre-parsed into literal runs and named
placeholders (`"\x7bfirst\x7d \x7blast\x7d"` becomes
`[arg "first", lit " ", arg "last"]`).  The `str.format` parse itself is
Python library behavior and is modelled by this token list. -/
inductive FmtPart where
  | lit : String → FmtPart
  | arg : String → FmtPart

/-- A validated field descriptor, mirroring the attributes that
`config.FieldConfig.__init__` stores on `self`.  `field_type` stays a string
exactly as in the Python class. -/
structure FieldConfig where
  agol_field : String
  sf_field : Option String
  field_alias : String
  field_type : String
  static_value : Option Value
  composite_format : Option (List FmtPart)
  flatten : Bool

namespace FieldConfig

/-- Class attribute `FieldConfig.text`. -/
def text : String := "text"

/-- Class attribute `FieldConfig.integer`. -/
def integer : String := "integer"

/-- Class attribute `FieldConfig.float`. -/
def float : String := "float"

/-- Class attribute `FieldConfig.date`. -/
def date : String := "date"

/-- Class attribute `FieldConfig.static`. -/
def static : String := "static"

/-- Class attribute `FieldConfig.composite`. -/
def composite : String := "composite"

/-- Embedding of `config.FieldConfig.__init__`.  The checks run in source
order: field-type membership, static_value, composite_format, flatten.  The
two `cannot have` messages reproduce the source's plain (non-f-string)
literals, brace placeholder included.  The flatten check evaluates
`"." not in sf_field`, which raises `TypeError` when `sf_field` is `None`. -/
def init (agol_field : String) (sf_field : Option String) (field_alias : String)
    (field_type : String) (static_value : Option Value)
    (composite_format : Option (List FmtPart)) (flatten : Bool) :
    Except PyError FieldConfig :=
  if field_type ∉ [text, integer, date, static, composite, float] then
    .error (.valueError ("Invalid field type: " ++ field_type))
  else if field_type = static ∧ static_value.isNone then
    .error (.valueError "Field type \x27static\x27 must have a \x27static_value\x27")
  else if field_type ≠ static ∧ static_value.isSome then
    .error (.valueError "Field type \x27\x7bfield_type\x7d\x27 cannot have a \x27static_value\x27")
  else if field_type = composite ∧ composite_format.isNone then
    .error (.valueError "Field type \x27composite\x27 must have a \x27composite_format\x27")
  else if field_type ≠ composite ∧ composite_format.isSome then
    .error (.valueError "Field type \x27\x7bfield_type\x7d\x27 cannot have a \x27composite_format\x27")
  else
    match sf_field, flatten with
    | none, true =>
      .error (.typeError "argument of type \x27NoneType\x27 is not iterable")
    | some sf, true =>
      if ¬ sf.contains '.' then
        .error (.valueError
          ("Field \x27" ++ sf ++ "\x27 cannot be flattened without a dot"))
      else
        .ok ⟨agol_field, some sf, field_alias, field_type, static_value,
          composite_format, true⟩
    | _, false =>
      .ok ⟨agol_field, sf_field, field_alias, field_type, static_value,
        composite_format, false⟩

end FieldConfig

/-- A pandas DataFrame modelled as its ordered list of named columns, each
column carrying its list of cell values (rows share one index, so all value
lists have the same length in well-formed tables). -/
structure DF where
  cols : List (String × List Value)

namespace DF

/-- The ordered column labels of a dataframe (`df.columns`). -/
def columns (df : DF) : List String :=
  df.cols.map (fun c => c.1)

/-- Column selection `df[name]` (first matching label; labels are unique in
the tables this pipeline builds). -/
def getCol (df : DF) (name : String) : Option (List Value) :=
  (df.cols.find? (fun c => c.1 == name)).map (fun c => c.2)

/-- Column assignment `df[name] = values`: replaces the values of an
existing column in place, or appends a new column at the end. -/
def setCol (df : DF) (name : String) (vs : List Value) : DF :=
  if df.cols.any (fun c => c.1 == name) then
    ⟨df.cols.map (fun c => if c.1 == name then (name, vs) else c)⟩
  else
    ⟨df.cols ++ [(name, vs)]⟩

/-- Column renaming `df.rename(mapper=mapping, axis=1)`: every label found
in the mapping is replaced by its target; labels absent from the mapping
are unchanged, mapping keys matching no label are ignored. -/
def rename (df : DF) (mapping : List (String × String)) : DF :=
  ⟨df.cols.map (fun c =>
    match (mapping.reverse).find? (fun p => p.1 == c.1) with
    | some p => (p.2, c.2)
    | none => c)⟩

/-- Column dropping `df.drop(columns=labels)`: raises `KeyError` when some
label is not found in the axis, otherwise removes every listed column
(duplicates in `labels` are harmless since presence is checked against the
original axis). -/
def dropCols (df : DF) (labels : List String) : Except PyError DF :=
  if labels.all (fun l => df.cols.any (fun c => c.1 == l)) then
    .ok ⟨df.cols.filter (fun c => !(labels.contains c.1))⟩
  else
    .error (.keyError "labels not found in axis")

/-- Number of rows of the shared index (length of the first column). -/
def nRows (df : DF) : Nat :=
  match df.cols with
  | [] => 0
  | c :: _ => c.2.length

/-- The environment `dict(x)` of row `i`: each column label paired with the
row's value in that column. -/
def rowEnv (df : DF) (i : Nat) : List (String × Value) :=
  df.cols.map (fun c => (c.1, c.2.getD i .vNull))

/-- All row environments, in index order (`df.apply(..., axis=1)` input). -/
def rows (df : DF) : List (List (String × Value)) :=
  (List.range df.nRows).map df.rowEnv

end DF

/-- `series.apply(f)` for a fallible element function: applies `f` to every
value in order, propagating the first raised exception. -/
def series_apply (f : α → Except PyError β) : List α → Except PyError (List β)
  | [] => .ok []
  | a :: rest => do
    let b ← f a
    let bs ← series_apply f rest
    .ok (b :: bs)

/-- Rendering of `template.format(**env)`: literal runs pass through, each
named placeholder is replaced by the `str` of the row's value under that
name, and a placeholder absent from the environment raises `KeyError`. -/
def renderFormat : List FmtPart → List (String × Value) → Except PyError String
  | [], _ => .ok ""
  | .lit s :: rest, env => do
    let r ← renderFormat rest env
    .ok (s ++ r)
  | .arg n :: rest, env =>
    match env.find? (fun p => p.1 == n) with
    | none => .error (.keyError n)
    | some p => do
      let r ← renderFormat rest env
      .ok (pyStr p.2 ++ r)

/-- The rename dictionary built in `extract_data_from_salesforce`
(helpers.py lines 75-79): `\x7bc.sf_field: c.agol_field for c in
self.field_configs if c.sf_field is not None\x7d` — every config with a
non-null `sf_field` contributes, flattened and composite ones included;
with duplicate keys the last config wins (dict semantics, reflected by
`DF.rename` consulting the reversed list). -/
def field_mappings (field_configs : List FieldConfig) : List (String × String) :=
  field_configs.filterMap (fun c => c.sf_field.map (fun sf => (sf, c.agol_field)))

/-- The flatten branch of the derive loop (helpers.py lines 84-91):
split `sf_field` on `"."`, read the parent column, apply `flatten` with the
child key, store the result under `agol_field`, and append the parent to
the drop list.  A `None` `sf_field` raises `AttributeError` (`.split` on
`None`), a missing second segment raises `IndexError`, and a missing parent
column raises `KeyError`. -/
def flatten_derive (st : DF × List String) (c : FieldConfig) :
    Except PyError (DF × List String) :=
  match c.sf_field with
  | none => .error (.attributeError "\x27NoneType\x27 object has no attribute \x27split\x27")
  | some sf =>
    match pySplit sf '.' with
    | parent_field :: child_field :: _ =>
      match st.1.getCol parent_field with
      | none => .error (.keyError parent_field)
      | some vs => do
        let ws ← series_apply (fun x => flatten x child_field) vs
        .ok (st.1.setCol c.agol_field ws, st.2 ++ [parent_field])
    | _ => .error (.indexError "list index out of range")

/-- One iteration of the derive loop of `extract_data_from_salesforce`
(helpers.py lines 83-105): the flatten branch runs first when
`c.flatten` is set, then the `static` / `integer` / `text` / `composite`
chain (a flattened config also goes through its type branch, exactly as in
the source; `float` and `date` have no branch). -/
def derive_config (st : DF × List String) (c : FieldConfig) :
    Except PyError (DF × List String) := do
  let st ← if c.flatten then flatten_derive st c else .ok st
  let (df, drops) := st
  if c.field_type = FieldConfig.static then
    let v := match c.static_value with | some v => v | none => Value.vNull
    .ok (df.setCol c.agol_field (List.replicate df.nRows v), drops)
  else if c.field_type = FieldConfig.integer then
    match df.getCol c.agol_field with
    | none => .error (.keyError c.agol_field)
    | some vs => do
      let ws ← series_apply convert_to_int vs
      .ok (df.setCol c.agol_field ws, drops)
  else if c.field_type = FieldConfig.text then
    match df.getCol c.agol_field with
    | none => .error (.keyError c.agol_field)
    | some vs => .ok (df.setCol c.agol_field (vs.map (fun v => Value.vStr (pyStr v))), drops)
  else if c.field_type = FieldConfig.composite then
    match c.composite_format with
    | none => .error (.attributeError "\x27NoneType\x27 object has no attribute \x27format\x27")
    | some fmt => do
      let ws ← series_apply (fun env => do
        let r ← renderFormat fmt env
        .ok (Value.vStr r)) df.rows
      .ok (df.setCol c.agol_field ws, drops)
  else
    .ok (df, drops)

/-- The whole derive loop, threading the evolving dataframe and the list of
parent columns marked for removal. -/
def derive_all : List FieldConfig → DF × List String → Except PyError (DF × List String)
  | [], st => .ok st
  | c :: cs, st => do
    let st ← derive_config st c
    derive_all cs st

/-- The drop of flattened parents after the loop (helpers.py lines
108-109), guarded by `len(fields_to_drop) > 0` as in the source. -/
def drop_step (st : DF × List String) : Except PyError DF :=
  if st.2.length > 0 then st.1.dropCols st.2 else .ok st.1

/-- Derive then drop: helpers.py lines 82-109 of
`extract_data_from_salesforce`. -/
def derive_and_drop (field_configs : List FieldConfig) (df : DF) :
    Except PyError DF := do
  let st ← derive_all field_configs (df, [])
  drop_step st

/-- The pure dataframe pipeline inlined in `extract_data_from_salesforce`
(helpers.py lines 75-109): rename per `field_mappings`, derive per config,
drop the flattened parents.  The palletjack dtype conversions that follow
in the source are external collaborators and do not change the column
list. -/
def transform_core (df : DF) (field_configs : List FieldConfig) :
    Except PyError DF :=
  derive_and_drop field_configs (df.rename (field_mappings field_configs))

/-- Embedding of `SalesForceRecords._build_columns_string` (helpers.py
lines 137-148): the comma-join of the non-null `sf_field`s in config
order. -/
def build_columns_string (field_configs : List FieldConfig) : String :=
  String.intercalate "," (field_configs.filterMap (fun c => c.sf_field))

/-- The SOQL query built in `extract_data_from_salesforce` (helpers.py
lines 60-64): `SELECT <fields> from <api>` with ` WHERE <clause>` appended
exactly when a where-clause is provided (the source writes the `from`
keyword in lowercase). -/
def build_query (field_configs : List FieldConfig) (salesforce_api : String)
    (where_clause : Option String) : String :=
  let base := "SELECT " ++ build_columns_string field_configs ++ " from " ++ salesforce_api
  match where_clause with
  | some w => base ++ " WHERE " ++ w
  | none => base

/-- Modelled from the spec: step 4 (Reorder) of
`apply_field_mappings_and_transformations`.  The function itself is called
by `main.py` and exercised by `tests/test_helpers.py` but is absent from
`helpers.py`; the spec prescribes "project the result to exactly the list
of `output_name`s from the descriptor set, in descriptor order", with a
missing output column being fatal. -/
def reorder_step (field_configs : List FieldConfig) (df : DF) : Except PyError DF :=
  let names := field_configs.map (fun c => c.agol_field)
  if names.all (fun n => df.cols.any (fun c => c.1 == n)) then
    .ok ⟨names.map (fun n => (n, match df.getCol n with | some vs => vs | none => []))⟩
  else
    .error (.keyError "columns not in index")

/-- Modelled from the spec: `apply_field_mappings_and_transformations(df,
field_configs)` — the Record Transformer called by `main.py` and the tests
but absent from `helpers.py`.  Its rename, derive and drop steps coincide
with the pipeline inlined in `extract_data_from_salesforce` (embedded above
as `transform_core`, from the source); the final Reorder step follows the
spec (`reorder_step`). -/
def apply_field_mappings_and_transformations (df : DF)
    (field_configs : List FieldConfig) : Except PyError DF := do
  let df ← transform_core df field_configs
  reorder_step field_configs df

/-- Kind invariant of the data model: the field type is one of the six
recognized values. -/
def validKind (field_type : String) : Prop :=
  field_type ∈ [FieldConfig.text, FieldConfig.integer, FieldConfig.date,
    FieldConfig.static, FieldConfig.composite, FieldConfig.float]

/-- Static invariant of the data model: kind is `static` exactly when a
constant value is present. -/
def staticOk (field_type : String) (static_value : Option Value) : Prop :=
  field_type = FieldConfig.static ↔ static_value.isSome = true

/-- Composite invariant of the data model: kind is `composite` exactly when
a format template is present. -/
def compositeOk (field_type : String) (composite_format : Option (List FmtPart)) : Prop :=
  field_type = FieldConfig.composite ↔ composite_format.isSome = true

/-- Flatten invariant of the data model: a flattened descriptor has a
source name containing a path separator. -/
def flattenOk (flatten : Bool) (sf_field : Option String) : Prop :=
  flatten = true →
    match sf_field with
    | none => False
    | some s => s.contains '.' = true

instance (field_type : String) : Decidable (validKind field_type) := by
  unfold validKind; infer_instance

instance (field_type : String) (static_value : Option Value) :
    Decidable (staticOk field_type static_value) := by
  unfold staticOk; infer_instance

instance (field_type : String) (composite_format : Option (List FmtPart)) :
    Decidable (compositeOk field_type composite_format) := by
  unfold compositeOk; infer_instance

instance (flatten : Bool) (sf_field : Option String) :
    Decidable (flattenOk flatten sf_field) := by
  unfold flattenOk
  cases sf_field <;> infer_instance

/-- Unfolding equation: assignment over a present label rewrites in place. -/
theorem DF.setCol_of_any_true {df : DF} {n : String} {vs : List Value}
    (h : df.cols.any (fun c => c.1 == n) = true) :
    df.setCol n vs = ⟨df.cols.map (fun c => if c.1 == n then (n, vs) else c)⟩ := by
  unfold DF.setCol
  rw [if_pos h]

/-- Unfolding equation: assignment over an absent label appends. -/
theorem DF.setCol_of_any_false {df : DF} {n : String} {vs : List Value}
    (h : df.cols.any (fun c => c.1 == n) = false) :
    df.setCol n vs = ⟨df.cols ++ [(n, vs)]⟩ := by
  unfold DF.setCol
  rw [if_neg (by simp [h])]

/-- Unfolding equation for column selection on an explicit column list. -/
theorem DF.getCol_mk (l : List (String × List Value)) (n : String) :
    (DF.mk l).getCol n = (l.find? (fun c => c.1 == n)).map (fun c => c.2) :=
  rfl

/-- Unfolding equation for the labels of an explicit column list. -/
theorem DF.columns_mk (l : List (String × List Value)) :
    (DF.mk l).columns = l.map (fun c => c.1) :=
  rfl

/-- Finding a label is the boolean `any` test the pipeline uses. -/
theorem any_beq_iff_mem_map (l : List (String × List Value)) (n : String) :
    l.any (fun c => c.1 == n) = true ↔ n ∈ l.map (fun c => c.1) := by
  simp only [List.any_eq_true, List.mem_map, beq_iff_eq]

/-- Replacing the values stored under a label makes that label's first hit
carry the new values. -/
theorem find_set_eq (n : String) (vs : List Value) (l : List (String × List Value))
    (h : l.any (fun c => c.1 == n) = true) :
    (l.map (fun c => if c.1 == n then (n, vs) else c)).find? (fun c => c.1 == n)
      = some (n, vs) := by
  induction l with
  | nil => cases h
  | cons c l ih =>
    by_cases hc : c.1 = n
    · rw [List.map_cons, if_pos (beq_iff_eq.mpr hc)]
      exact List.find?_cons_of_pos _ (by simp)
    · have hcn : (c.1 == n) = false := beq_eq_false_iff_ne.mpr hc
      have h' : l.any (fun c => c.1 == n) = true := by simpa [hcn] using h
      rw [List.map_cons, if_neg (by simp [hcn]),
        List.find?_cons_of_neg _ (by simp [hcn])]
      exact ih h'

/-- Replacing the values stored under one label leaves lookups of any other
label unchanged. -/
theorem find_set_ne (n m : String) (vs : List Value) (l : List (String × List Value))
    (h : (m == n) = false) :
    (l.map (fun c => if c.1 == n then (n, vs) else c)).find? (fun c => c.1 == m)
      = l.find? (fun c => c.1 == m) := by
  induction l with
  | nil => rfl
  | cons c l ih =>
    by_cases hc : c.1 = n
    · have hnm : (n == m) = false := by
        rw [beq_eq_false_iff_ne] at h ⊢
        exact fun hx => h hx.symm
      have hcm : (c.1 == m) = false := by
        rw [beq_eq_false_iff_ne] at hnm ⊢
        rw [hc]
        exact hnm
      rw [List.map_cons, if_pos (beq_iff_eq.mpr hc),
        List.find?_cons_of_neg _ (by simp [hnm]),
        List.find?_cons_of_neg _ (by simp [hcm])]
      exact ih
    · have hcn : (c.1 == n) = false := beq_eq_false_iff_ne.mpr hc
      rw [List.map_cons, if_neg (by simp [hcn])]
      by_cases hcm : c.1 = m
      · rw [List.find?_cons_of_pos _ (by simp [hcm]),
          List.find?_cons_of_pos _ (by simp [hcm])]
      · rw [List.find?_cons_of_neg _ (by simp [beq_eq_false_iff_ne.mpr hcm]),
          List.find?_cons_of_neg _ (by simp [beq_eq_false_iff_ne.mpr hcm])]
        exact ih

/-- When no stored label matches, the lookup fails. -/
theorem find_none_of_any_false (n : String) (l : List (String × List Value))
    (h : l.any (fun c => c.1 == n) = false) :
    l.find? (fun c => c.1 == n) = none := by
  induction l with
  | nil => rfl
  | cons c l ih =>
    simp only [List.any_cons, Bool.or_eq_false_iff] at h
    rw [List.find?_cons_of_neg _ (by simp [h.1])]
    exact ih h.2

/-- Replacement keeps the label list; the replaced entry's label is the
matched one. -/
theorem map_fst_set (n : String) (vs : List Value) (l : List (String × List Value)) :
    (l.map (fun c => if c.1 == n then (n, vs) else c)).map (fun c => c.1)
      = l.map (fun c => c.1) := by
  induction l with
  | nil => rfl
  | cons c l ih =>
    by_cases hc : c.1 = n
    · simp only [List.map_cons, if_pos (beq_iff_eq.mpr hc), ih, hc]
      simp
    · simp only [List.map_cons, if_neg (by simp [hc] : ¬((c.1 == n) = true)), ih]

/-- Selecting the column just assigned yields the assigned values. -/
theorem DF.getCol_setCol_self (df : DF) (n : String) (vs : List Value) :
    (df.setCol n vs).getCol n = some vs := by
  by_cases ha : df.cols.any (fun c => c.1 == n) = true
  · rw [DF.setCol_of_any_true ha, DF.getCol_mk, find_set_eq n vs df.cols ha]
    rfl
  · have ha' : df.cols.any (fun c => c.1 == n) = false := Bool.eq_false_iff.mpr ha
    rw [DF.setCol_of_any_false ha', DF.getCol_mk, List.find?_append,
      find_none_of_any_false n df.cols ha']
    simp

/-- Selecting a different column is unaffected by an assignment. -/
theorem DF.getCol_setCol_ne (df : DF) {n m : String} (vs : List Value)
    (h : (m == n) = false) : (df.setCol n vs).getCol m = df.getCol m := by
  by_cases ha : df.cols.any (fun c => c.1 == n) = true
  · rw [DF.setCol_of_any_true ha, DF.getCol_mk, find_set_ne n m vs df.cols h]
    rfl
  · have ha' : df.cols.any (fun c => c.1 == n) = false := Bool.eq_false_iff.mpr ha
    have hnm : (n == m) = false := by
      rw [beq_eq_false_iff_ne] at h ⊢
      exact fun hx => h hx.symm
    rw [DF.setCol_of_any_false ha', DF.getCol_mk, List.find?_append]
    rw [show ([(n, vs)].find? (fun c => c.1 == m)) = none by
      simp [List.find?_singleton, hnm]]
    simp [DF.getCol]

/-- Setting an existing column keeps the label list unchanged. -/
theorem DF.columns_setCol_of_mem {df : DF} {n : String} (vs : List Value)
    (h : df.cols.any (fun c => c.1 == n) = true) :
    (df.setCol n vs).columns = df.columns := by
  rw [DF.setCol_of_any_true h, DF.columns_mk, map_fst_set]
  rfl

/-- Setting a fresh column appends its label. -/
theorem DF.columns_setCol_of_not_mem {df : DF} {n : String} (vs : List Value)
    (h : df.cols.any (fun c => c.1 == n) = false) :
    (df.setCol n vs).columns = df.columns ++ [n] := by
  rw [DF.setCol_of_any_false h, DF.columns_mk, List.map_append]
  rfl

/-- Column assignment preserves the presence of every label. -/
theorem DF.mem_columns_setCol {df : DF} {m : String} (n : String) (vs : List Value)
    (h : m ∈ df.columns) : m ∈ (df.setCol n vs).columns := by
  by_cases ha : df.cols.any (fun c => c.1 == n) = true
  · rw [DF.columns_setCol_of_mem vs ha]
    exact h
  · rw [DF.columns_setCol_of_not_mem vs (Bool.eq_false_iff.mpr ha)]
    exact List.mem_append_left _ h

/-- A successful column selection witnesses the label's presence. -/
theorem DF.mem_columns_of_getCol_some {df : DF} {n : String} {vs : List Value}
    (h : df.getCol n = some vs) : n ∈ df.columns := by
  rw [DF.columns, ← any_beq_iff_mem_map]
  by_cases ha : df.cols.any (fun c => c.1 == n) = true
  · exact ha
  · rw [DF.getCol, find_none_of_any_false n df.cols (Bool.eq_false_iff.mpr ha)] at h
    cases h

/-- Filtering out a drop list changes no lookup of a label outside it. -/
theorem find_filter_of_not_contains (m : String) (labels : List String)
    (l : List (String × List Value)) (h : labels.contains m = false) :
    (l.filter (fun c => !(labels.contains c.1))).find? (fun c => c.1 == m)
      = l.find? (fun c => c.1 == m) := by
  induction l with
  | nil => rfl
  | cons c l ih =>
    by_cases hcm : c.1 = m
    · have hcl : labels.contains c.1 = false := by rw [hcm]; exact h
      rw [List.filter_cons_of_pos (by rw [hcl]; rfl),
        List.find?_cons_of_pos _ (by simp [hcm]),
        List.find?_cons_of_pos _ (by simp [hcm])]
    · have hne : (c.1 == m) = false := beq_eq_false_iff_ne.mpr hcm
      cases hlc : labels.contains c.1 with
      | true =>
        rw [List.filter_cons_of_neg (by rw [hlc]; simp),
          List.find?_cons_of_neg _ (by simp [hne])]
        exact ih
      | false =>
        rw [List.filter_cons_of_pos (by rw [hlc]; rfl),
          List.find?_cons_of_neg _ (by simp [hne]),
          List.find?_cons_of_neg _ (by simp [hne])]
        exact ih

/-- A label of the drop list is absent from the filtered column list. -/
theorem not_mem_columns_filter (p : String) (labels : List String)
    (l : List (String × List Value)) (hp : labels.contains p = true) :
    p ∉ (l.filter (fun c => !(labels.contains c.1))).map (fun c => c.1) := by
  intro hmem
  obtain ⟨c, hc, hcp⟩ := List.mem_map.mp hmem
  have hcf := (List.mem_filter.mp hc).2
  rw [hcp, hp] at hcf
  simp at hcf

/-- Unfolding equation for the exception monad: a success feeds the rest of
the pipeline. -/
theorem except_bind_ok (a : α) (f : α → Except PyError β) :
    (Except.ok a >>= f) = f a :=
  rfl

/-- Unfolding equation for the exception monad: a raised exception skips
the rest of the pipeline. -/
theorem except_bind_error (e : PyError) (f : α → Except PyError β) :
    ((Except.error e : Except PyError α) >>= f) = .error e :=
  rfl

/-- C3: for every row value of a flatten descriptor's source column, a null
raw value yields a null derived value; a non-null raw value that is not a
mapping, or a mapping lacking the child key, raises the fatal `ValueError`
(never silently coerced); otherwise the derived value is the mapping's
value at the child key. -/
theorem flatten_row_spec (child s : String) (b : Bool) (n : Int)
    (m : List (String × Value)) (v : Value) :
    (flatten .vNull child = .ok .vNull)
    ∧ (flatten (.vStr s) child
        = .error (.valueError "Expected a dictionary, got <class \x27str\x27>"))
    ∧ (flatten (.vInt n) child
        = .error (.valueError "Expected a dictionary, got <class \x27int\x27>"))
    ∧ (flatten (.vBool b) child
        = .error (.valueError "Expected a dictionary, got <class \x27bool\x27>"))
    ∧ (dictFind m child = none →
        flatten (.vDict m) child
          = .error (.valueError ("Expected a child field \x27" ++ child
              ++ "\x27, but not found in the dictionary")))
    ∧ (dictFind m child = some v → flatten (.vDict m) child = .ok v) := by
  refine ⟨rfl, rfl, rfl, rfl, ?_, ?_⟩
  · intro h
    simp only [flatten, h]
  · intro h
    simp only [flatten, h]

/-- C3 witness: concrete flatten rows exercising the dictionary conjuncts
of `flatten_row_spec`, at a present and at a missing child key. -/
theorem flatten_row_spec_witness :
    (flatten (.vDict [("Child", .vStr "X")]) "Child" = .ok (.vStr "X"))
    ∧ (flatten (.vDict [("Other", .vNull)]) "Child"
        = .error (.valueError
            "Expected a child field \x27Child\x27, but not found in the dictionary")) :=
  ⟨(flatten_row_spec "Child" "" false 0 [("Child", .vStr "X")] (.vStr "X")).2.2.2.2.2 rfl,
   (flatten_row_spec "Child" "" false 0 [("Other", .vNull)] (.vStr "X")).2.2.2.2.1 rfl⟩

/-- C4 counterexample: integer coercion raises on a mapping input — the
`except` clause catches only `ValueError`, so the `TypeError` raised by
`int()` on a dict propagates instead of yielding the sentinel. -/
theorem convert_to_int_raises_on_dict :
    convert_to_int (.vDict [])
      = .error (.typeError
          "int() argument must be a string, a bytes-like object or a real number, not \x27dict\x27") :=
  rfl

/-- C4 (amended): for null, boolean, integer and string inputs the coercion
never raises — a parseable base-10 string yields its integer, null stays
null, and a string that fails to parse yields the fixed documented sentinel
-1 — but a mapping input raises `TypeError`. -/
theorem convert_to_int_spec (s : String) (n k : Int) (b : Bool)
    (m : List (String × Value)) :
    (convert_to_int .vNull = .ok .vNull)
    ∧ (parseIntBase10 s = some n → convert_to_int (.vStr s) = .ok (.vInt n))
    ∧ (parseIntBase10 s = none → convert_to_int (.vStr s) = .ok (.vInt (-1)))
    ∧ (convert_to_int (.vInt k) = .ok (.vInt k))
    ∧ (convert_to_int (.vBool b) = .ok (.vInt (if b then 1 else 0)))
    ∧ (convert_to_int (.vDict m)
        = .error (.typeError
            "int() argument must be a string, a bytes-like object or a real number, not \x27dict\x27")) := by
  refine ⟨rfl, ?_, ?_, rfl, ?_, rfl⟩
  · intro h
    simp only [convert_to_int, pyInt, h]
  · intro h
    simp only [convert_to_int, pyInt, h]
  · cases b <;> rfl

/-- C4 witness: the documented concrete behaviors — `"123"` parses to 123,
`"abc"` yields the sentinel -1 — via `convert_to_int_spec`. -/
theorem convert_to_int_spec_witness :
    (convert_to_int (.vStr "123") = .ok (.vInt 123))
    ∧ (convert_to_int (.vStr "abc") = .ok (.vInt (-1))) :=
  ⟨(convert_to_int_spec "123" 123 0 false []).2.1 rfl,
   (convert_to_int_spec "abc" 123 0 false []).2.2.1 rfl⟩

/-- C5: the error for a disallowed constant value is raised from a plain
string literal (the source line is missing the f-prefix), so its message
carries the placeholder text `\x7bfield_type\x7d` and not the actual kind
that was passed — here `text`, which the repository's own tests expect to
appear in the message. -/
theorem fieldconfig_static_message_unformatted :
    (FieldConfig.init "AGOL" (some "SF") "Alias" "text" (some (.vStr "value")) none false
      = .error (.valueError
          "Field type \x27\x7bfield_type\x7d\x27 cannot have a \x27static_value\x27"))
    ∧ ("Field type \x27\x7bfield_type\x7d\x27 cannot have a \x27static_value\x27"
        ≠ "Field type \x27text\x27 cannot have a \x27static_value\x27") :=
  ⟨rfl, by decide⟩

/-- C2 counterexample: a descriptor with a null source name and kind `text`
(neither static nor composite) is accepted — `__init__` has no check tying
a null `sf_field` to the static and composite kinds, while the claim says
such a construction fails. -/
theorem fieldconfig_null_source_accepted :
    FieldConfig.init "AGOL" none "Alias" "text" none none false
      = .ok ⟨"AGOL", none, "Alias", "text", none, none, false⟩ :=
  rfl

/-- C6 counterexample: the rename mapping is built from every config whose
`sf_field` is non-null, flattened ones included, so a raw column bearing a
flattened descriptor's exact dotted source name is renamed to its output
name — the claim says the dotted name never participates. -/
theorem rename_renames_dotted_column :
    DF.rename ⟨[("P.C", [.vStr "x"])]⟩
        (field_mappings [⟨"X", some "P.C", "al", FieldConfig.date, none, none, true⟩])
      = ⟨[("X", [.vStr "x"])]⟩ :=
  rfl

/-- C2 (amended): construction succeeds for every combination satisfying
the four enforced invariants (recognized kind, static iff constant value,
composite iff format template, flattened implies a separator in a non-null
source name), and fails with the error identifying the violated invariant
for every combination violating exactly one of them; a null source name
with a kind other than static or composite is not checked (see the
counterexample), and flattening with a null source name raises a
`TypeError` rather than a descriptive error. -/
theorem fieldconfig_validation (agol : String) (sf : Option String) (al : String)
    (ft : String) (sv : Option Value) (cf : Option (List FmtPart)) (fl : Bool) :
    (validKind ft → staticOk ft sv → compositeOk ft cf → flattenOk fl sf →
      FieldConfig.init agol sf al ft sv cf fl = .ok ⟨agol, sf, al, ft, sv, cf, fl⟩)
    ∧ (¬ validKind ft →
      FieldConfig.init agol sf al ft sv cf fl
        = .error (.valueError ("Invalid field type: " ++ ft)))
    ∧ (validKind ft → ft = FieldConfig.static → sv = none →
      FieldConfig.init agol sf al ft sv cf fl
        = .error (.valueError
            "Field type \x27static\x27 must have a \x27static_value\x27"))
    ∧ (validKind ft → ft ≠ FieldConfig.static → sv.isSome = true →
      FieldConfig.init agol sf al ft sv cf fl
        = .error (.valueError
            "Field type \x27\x7bfield_type\x7d\x27 cannot have a \x27static_value\x27"))
    ∧ (validKind ft → ft = FieldConfig.composite → sv = none → cf = none →
      FieldConfig.init agol sf al ft sv cf fl
        = .error (.valueError
            "Field type \x27composite\x27 must have a \x27composite_format\x27"))
    ∧ (validKind ft → ft ≠ FieldConfig.composite → staticOk ft sv → cf.isSome = true →
      FieldConfig.init agol sf al ft sv cf fl
        = .error (.valueError
            "Field type \x27\x7bfield_type\x7d\x27 cannot have a \x27composite_format\x27"))
    ∧ (∀ s, validKind ft → staticOk ft sv → compositeOk ft cf →
      fl = true → sf = some s → s.contains '.' = false →
      FieldConfig.init agol sf al ft sv cf fl
        = .error (.valueError
            ("Field \x27" ++ s ++ "\x27 cannot be flattened without a dot")))
    ∧ (validKind ft → staticOk ft sv → compositeOk ft cf →
      fl = true → sf = none →
      FieldConfig.init agol sf al ft sv cf fl
        = .error (.typeError "argument of type \x27NoneType\x27 is not iterable")) := by
  have hnot2 : staticOk ft sv → ¬(ft = FieldConfig.static ∧ sv.isNone = true) := by
    rintro hs ⟨hft, hnone⟩
    have hsome := hs.mp hft
    cases sv with
    | none => simp at hsome
    | some v => simp at hnone
  have hnot3 : staticOk ft sv → ¬(ft ≠ FieldConfig.static ∧ sv.isSome = true) := by
    rintro hs ⟨hne, hsome⟩
    exact hne (hs.mpr hsome)
  have hnot4 : compositeOk ft cf → ¬(ft = FieldConfig.composite ∧ cf.isNone = true) := by
    rintro hc ⟨hft, hnone⟩
    have hsome := hc.mp hft
    cases cf with
    | none => simp at hsome
    | some v => simp at hnone
  have hnot5 : compositeOk ft cf → ¬(ft ≠ FieldConfig.composite ∧ cf.isSome = true) := by
    rintro hc ⟨hne, hsome⟩
    exact hne (hc.mpr hsome)
  have hvpos : ¬ validKind ft → ft ∉ [FieldConfig.text, FieldConfig.integer,
      FieldConfig.date, FieldConfig.static, FieldConfig.composite, FieldConfig.float] :=
    fun h => h
  have hvneg : validKind ft → ¬(ft ∉ [FieldConfig.text, FieldConfig.integer,
      FieldConfig.date, FieldConfig.static, FieldConfig.composite, FieldConfig.float]) :=
    fun h => not_not_intro h
  refine ⟨?_, ?_, ?_, ?_, ?_, ?_, ?_, ?_⟩
  · intro hv hs hc hf
    unfold FieldConfig.init
    rw [if_neg (hvneg hv), if_neg (hnot2 hs), if_neg (hnot3 hs),
      if_neg (hnot4 hc), if_neg (hnot5 hc)]
    cases fl with
    | false => cases sf <;> rfl
    | true =>
      cases sf with
      | none => exact absurd (hf rfl) (by simp [flattenOk])
      | some s =>
        have hcon : s.contains '.' = true := hf rfl
        simp only [hcon]
        rw [if_neg (by simp [hcon])]
  · intro hv
    unfold FieldConfig.init
    rw [if_pos (hvpos hv)]
  · intro hv hft hsv
    unfold FieldConfig.init
    rw [if_neg (hvneg hv), if_pos ⟨hft, by rw [hsv]; rfl⟩]
  · intro hv hne hsome
    unfold FieldConfig.init
    rw [if_neg (hvneg hv), if_neg (by rintro ⟨hft, _⟩; exact hne hft),
      if_pos ⟨hne, hsome⟩]
  · intro hv hft hsv hcf
    unfold FieldConfig.init
    rw [if_neg (hvneg hv),
      if_neg (by rintro ⟨h, _⟩; rw [hft] at h; exact absurd h (by decide)),
      if_neg (by rintro ⟨_, h⟩; rw [hsv] at h; simp at h),
      if_pos ⟨hft, by rw [hcf]; rfl⟩]
  · intro hv hne hs hsome
    unfold FieldConfig.init
    rw [if_neg (hvneg hv), if_neg (hnot2 hs), if_neg (hnot3 hs),
      if_neg (by rintro ⟨hft, _⟩; exact hne hft), if_pos ⟨hne, hsome⟩]
  · intro s hv hs hc hfl hsf hcon
    unfold FieldConfig.init
    rw [if_neg (hvneg hv), if_neg (hnot2 hs), if_neg (hnot3 hs),
      if_neg (hnot4 hc), if_neg (hnot5 hc)]
    subst hfl
    subst hsf
    simp only
    rw [if_pos (by simp [hcon])]
  · intro hv hs hc hfl hsf
    unfold FieldConfig.init
    rw [if_neg (hvneg hv), if_neg (hnot2 hs), if_neg (hnot3 hs),
      if_neg (hnot4 hc), if_neg (hnot5 hc)]
    subst hfl
    subst hsf
    rfl

/-- C2 witness: concrete instances of `fieldconfig_validation` — a valid
text descriptor and a valid flattened descriptor are accepted; an unknown
kind, a static kind without its constant, and a flattened source without a
separator are each rejected with the matching error. -/
theorem fieldconfig_validation_witness :
    (FieldConfig.init "AGOL" (some "SF") "Alias" "text" none none false
      = .ok ⟨"AGOL", some "SF", "Alias", "text", none, none, false⟩)
    ∧ (FieldConfig.init "AGOL" (some "Parent.Child") "Alias" "text" none none true
      = .ok ⟨"AGOL", some "Parent.Child", "Alias", "text", none, none, true⟩)
    ∧ (FieldConfig.init "AGOL" (some "SF") "Alias" "invalid_type" none none false
      = .error (.valueError "Invalid field type: invalid_type"))
    ∧ (FieldConfig.init "AGOL" none "Alias" "static" none none false
      = .error (.valueError "Field type \x27static\x27 must have a \x27static_value\x27"))
    ∧ (FieldConfig.init "AGOL" (some "NoDotField") "Alias" "text" none none true
      = .error (.valueError
          "Field \x27NoDotField\x27 cannot be flattened without a dot")) := by
  refine ⟨?_, ?_, ?_, ?_, ?_⟩
  · exact (fieldconfig_validation "AGOL" (some "SF") "Alias" "text" none none
      false).1 (by decide) (by decide) (by decide) (fun h => by cases h)
  · exact (fieldconfig_validation "AGOL" (some "Parent.Child") "Alias" "text" none none
      true).1 (by decide) (by decide) (by decide)
      (fun _ => (String.contains_iff "Parent.Child" '.').mpr (by decide))
  · exact (fieldconfig_validation "AGOL" (some "SF") "Alias" "invalid_type" none none
      false).2.1 (by decide)
  · exact (fieldconfig_validation "AGOL" none "Alias" "static" none none
      false).2.2.1 (by decide) rfl rfl
  · exact (fieldconfig_validation "AGOL" (some "NoDotField") "Alias" "text" none none
      true).2.2.2.2.2.2.1 "NoDotField" (by decide) (by decide) (by decide) rfl rfl
      (Bool.eq_false_iff.mpr
        (fun h => absurd ((String.contains_iff "NoDotField" '.').mp h) (by decide)))

/-- C7: the text branch of the derive loop stringifies every value of the
existing output column (it is a total map, so it never fails on any value),
the null value is stringified to the fixed literal `"None"`, and that
literal is not the empty string. -/
theorem text_coercion_spec (df : DF) (drops : List String) (c : FieldConfig)
    (vs : List Value) (n : Int)
    (hfl : c.flatten = false) (hty : c.field_type = FieldConfig.text)
    (hcol : df.getCol c.agol_field = some vs) :
    (derive_config (df, drops) c
      = .ok (df.setCol c.agol_field (vs.map (fun v => Value.vStr (pyStr v))), drops))
    ∧ pyStr (Value.vInt n) = toString n
    ∧ pyStr Value.vNull = "None"
    ∧ ("None" : String) ≠ "" := by
  refine ⟨?_, rfl, rfl, by decide⟩
  unfold derive_config
  rw [hfl, hty]
  rw [if_neg (by decide), except_bind_ok]
  simp only
  rw [if_neg (by decide), if_neg (by decide)]
  simp only [if_true]
  rw [hcol]

/-- C7 witness: a concrete mixed column — `123` becomes `"123"`, a string
stays itself, and null becomes `"None"`, not `""` — via
`text_coercion_spec`. -/
theorem text_coercion_spec_witness :
    derive_config (⟨[("text_field", [.vInt 123, .vStr "text", .vNull])]⟩, [])
        ⟨"text_field", some "mixed_field", "Text", "text", none, none, false⟩
      = .ok (⟨[("text_field", [.vStr "123", .vStr "text", .vStr "None"])]⟩, []) :=
  (text_coercion_spec ⟨[("text_field", [.vInt 123, .vStr "text", .vNull])]⟩ []
    ⟨"text_field", some "mixed_field", "Text", "text", none, none, false⟩
    [.vInt 123, .vStr "text", .vNull] 0 rfl rfl rfl).1

/-- C6 (amended): the rename mapping contains exactly one entry per
descriptor with a non-null `source_name`, flattened and composite
descriptors included — the mapping membership does not depend on `flatten`
or on the kind, so a flattened descriptor's dotted source name does
participate in the rename. -/
theorem field_mappings_spec (field_configs : List FieldConfig) (s a : String) :
    (s, a) ∈ field_mappings field_configs
      ↔ ∃ c, c ∈ field_configs ∧ c.sf_field = some s ∧ c.agol_field = a := by
  unfold field_mappings
  rw [List.mem_filterMap]
  constructor
  · rintro ⟨c, hc, hmap⟩
    cases hsf : c.sf_field with
    | none => rw [hsf] at hmap; cases hmap
    | some t =>
      rw [hsf] at hmap
      cases hmap
      exact ⟨c, hc, hsf, rfl⟩
  · rintro ⟨c, hc, hsf, ha⟩
    exact ⟨c, hc, by rw [hsf, ha]; rfl⟩

/-- C6 witness: a flattened descriptor's dotted source name is a member of
the rename mapping, via `field_mappings_spec`. -/
theorem field_mappings_spec_witness :
    ("P.C", "X") ∈ field_mappings
      [⟨"X", some "P.C", "al", FieldConfig.date, none, none, true⟩] :=
  (field_mappings_spec
      [⟨"X", some "P.C", "al", FieldConfig.date, none, none, true⟩] "P.C" "X").mpr
    ⟨⟨"X", some "P.C", "al", FieldConfig.date, none, none, true⟩,
      List.mem_singleton.mpr rfl, rfl, rfl⟩

/-- C9 counterexample: the emitted query spells the `from` keyword in
lowercase, so the query string does not have the claimed literal shape
`SELECT <columns> FROM <resource>` at this input. -/
theorem build_query_lowercase_from :
    (build_query
        [⟨"FACILITYID", some "Id", "Facility ID", FieldConfig.text, none, none, false⟩]
        "T" none
      = "SELECT Id from T")
    ∧ ("SELECT Id from T" ≠ "SELECT Id FROM T") :=
  ⟨rfl, by decide⟩

/-- The accumulator of `String.intercalate` distributes over a prefix. -/
theorem intercalate_go_append (x y sep : String) (l : List String) :
    String.intercalate.go (x ++ y) sep l = x ++ String.intercalate.go y sep l := by
  induction l generalizing y with
  | nil => rfl
  | cons a as ih =>
    show String.intercalate.go (x ++ y ++ sep ++ a) sep as = _
    rw [String.append_assoc, String.append_assoc, ih, ← String.append_assoc]
    rfl

/-- The comma-join of a cons: the head, then a comma and the joined rest
when the rest is nonempty. -/
theorem intercalate_comma_cons (a : String) (l : List String) :
    String.intercalate "," (a :: l)
      = a ++ (if l.isEmpty then "" else "," ++ String.intercalate "," l) := by
  cases l with
  | nil =>
    show a = a ++ ""
    rw [String.append_empty]
  | cons b bs =>
    show String.intercalate.go a "," (b :: bs)
      = a ++ ("," ++ String.intercalate.go b "," bs)
    show String.intercalate.go (a ++ "," ++ b) "," bs = _
    rw [String.append_assoc, intercalate_go_append, intercalate_go_append]

/-- C9 (amended): the column-list builder returns the comma-join of exactly
the non-null source names in descriptor order — a null source name is
skipped, a non-null one contributes at its position — and the query string
is `SELECT <columns> from <resource>` (the `from` keyword is lowercase in
the source) with ` WHERE <filter>` appended exactly when a filter clause is
provided. -/
theorem build_query_spec (field_configs cs : List FieldConfig) (c : FieldConfig)
    (api w s : String) :
    (build_query field_configs api none
      = "SELECT " ++ build_columns_string field_configs ++ " from " ++ api)
    ∧ (build_query field_configs api (some w)
      = "SELECT " ++ build_columns_string field_configs ++ " from " ++ api
          ++ " WHERE " ++ w)
    ∧ (c.sf_field = none → build_columns_string (c :: cs) = build_columns_string cs)
    ∧ (c.sf_field = some s →
      build_columns_string (c :: cs)
        = s ++ (if (cs.filterMap (fun k => k.sf_field)).isEmpty then ""
            else "," ++ build_columns_string cs)) := by
  refine ⟨rfl, rfl, ?_, ?_⟩
  · intro h
    unfold build_columns_string
    rw [List.filterMap_cons_none h]
  · intro h
    unfold build_columns_string
    rw [List.filterMap_cons_some h]
    exact intercalate_comma_cons s _

/-- C9 witness: the repository test's concrete configs — two text fields
and a static field with a null source name — joined and queried, via
`build_query_spec`. -/
theorem build_query_spec_witness :
    (build_columns_string
        [⟨"static1", none, "St", FieldConfig.static, some (.vStr "val"), none, false⟩,
         ⟨"agol2", some "sf_field2", "A2", FieldConfig.text, none, none, false⟩]
      = build_columns_string
          [⟨"agol2", some "sf_field2", "A2", FieldConfig.text, none, none, false⟩])
    ∧ (build_columns_string
        [⟨"agol1", some "sf_field1", "A1", FieldConfig.text, none, none, false⟩,
         ⟨"agol2", some "sf_field2", "A2", FieldConfig.text, none, none, false⟩]
      = "sf_field1,sf_field2")
    ∧ (build_query
        [⟨"agol1", some "sf_field1", "A1", FieldConfig.text, none, none, false⟩]
        "Table__c" (some "Field=\x27Value\x27")
      = "SELECT sf_field1 from Table__c WHERE Field=\x27Value\x27") := by
  refine ⟨?_, ?_, ?_⟩
  · exact (build_query_spec []
      [⟨"agol2", some "sf_field2", "A2", FieldConfig.text, none, none, false⟩]
      ⟨"static1", none, "St", FieldConfig.static, some (.vStr "val"), none, false⟩
      "" "" "").2.2.1 rfl
  · exact (build_query_spec []
      [⟨"agol2", some "sf_field2", "A2", FieldConfig.text, none, none, false⟩]
      ⟨"agol1", some "sf_field1", "A1", FieldConfig.text, none, none, false⟩
      "" "" "sf_field1").2.2.2 rfl
  · exact (build_query_spec
      [⟨"agol1", some "sf_field1", "A1", FieldConfig.text, none, none, false⟩] []
      ⟨"agol1", some "sf_field1", "A1", FieldConfig.text, none, none, false⟩
      "Table__c" "Field=\x27Value\x27" "").2.1

/-- C1: whenever the transformation produces a transformed record set, its
columns are exactly the `agol_field`s of the descriptor set, in descriptor
order — the final projection admits no extra column and no other order.
(The projection step itself is modelled from the spec; see
`reorder_step`.) -/
theorem transform_output_columns_exact (df : DF) (field_configs : List FieldConfig)
    (out : DF)
    (h : apply_field_mappings_and_transformations df field_configs = .ok out) :
    out.columns = field_configs.map (fun c => c.agol_field) := by
  unfold apply_field_mappings_and_transformations at h
  cases htc : transform_core df field_configs with
  | error e =>
    rw [htc, except_bind_error] at h
    cases h
  | ok df1 =>
    rw [htc, except_bind_ok] at h
    simp only [reorder_step] at h
    by_cases hall : (field_configs.map (fun c => c.agol_field)).all
        (fun n => df1.cols.any (fun c => c.1 == n)) = true
    · rw [if_pos hall] at h
      cases h
      rw [DF.columns_mk, List.map_map]
      have hcomp : List.map
          ((fun c => c.1) ∘ fun n =>
            (n, match df1.getCol n with | some vs => vs | none => []))
          (List.map (fun c => c.agol_field) field_configs)
          = List.map id (List.map (fun c => c.agol_field) field_configs) := rfl
      rw [hcomp, List.map_id]
    · rw [if_neg hall] at h
      cases h

/-- C1 witness: the repository test's column-ordering example — raw columns
`z, a, m`, descriptors ordered `a, m, z` — transformed through the whole
pipeline, via `transform_output_columns_exact`. -/
theorem transform_output_columns_exact_witness :
    DF.columns ⟨[("a", [.vInt 2]), ("m", [.vInt 3]), ("z", [.vInt 1])]⟩
      = ["a", "m", "z"] :=
  transform_output_columns_exact
    ⟨[("field_z", [.vInt 1]), ("field_a", [.vInt 2]), ("field_m", [.vInt 3])]⟩
    [⟨"a", some "field_a", "A", FieldConfig.integer, none, none, false⟩,
     ⟨"m", some "field_m", "M", FieldConfig.integer, none, none, false⟩,
     ⟨"z", some "field_z", "Z", FieldConfig.integer, none, none, false⟩]
    ⟨[("a", [.vInt 2]), ("m", [.vInt 3]), ("z", [.vInt 1])]⟩
    rfl

/-- One derive-loop iteration for a flattened date-kind descriptor: the
source name splits into parent and child, the parent column's values are
flattened with the child key into the output column, and the parent is
appended to the drop list (the date kind has no branch of its own in the
type chain). -/
theorem derive_config_flatten_date (df : DF) (drops : List String)
    (agol sf al p k : String) (rest : List String) (vs ws : List Value)
    (hsplit : pySplit sf '.' = p :: k :: rest)
    (hcol : df.getCol p = some vs)
    (hw : series_apply (fun x => flatten x k) vs = .ok ws) :
    derive_config (df, drops) ⟨agol, some sf, al, FieldConfig.date, none, none, true⟩
      = .ok (df.setCol agol ws, drops ++ [p]) := by
  have hflat : flatten_derive (df, drops)
      ⟨agol, some sf, al, FieldConfig.date, none, none, true⟩
      = .ok (df.setCol agol ws, drops ++ [p]) := by
    unfold flatten_derive
    simp only
    rw [hsplit]
    simp only
    rw [hcol]
    simp only [hw, except_bind_ok]
  unfold derive_config
  simp only [if_true]
  rw [hflat, except_bind_ok]
  simp only
  rw [if_neg (show ¬(FieldConfig.date = FieldConfig.static) by decide),
    if_neg (show ¬(FieldConfig.date = FieldConfig.integer) by decide),
    if_neg (show ¬(FieldConfig.date = FieldConfig.text) by decide),
    if_neg (show ¬(FieldConfig.date = FieldConfig.composite) by decide)]

/-- C10: a flattened descriptor whose source name splits into two or more
segments is accepted by construction (any separator suffices), and the
derive step reads the parent column named by the first segment and extracts
the child key named by the second segment — every segment after the second
is ignored (the conclusion does not depend on `rest`). -/
theorem flatten_multidot_spec (sf p k al agol : String) (rest : List String)
    (df : DF) (vs ws : List Value)
    (hsplit : pySplit sf '.' = p :: k :: rest)
    (hdot : sf.contains '.' = true)
    (hcol : df.getCol p = some vs)
    (hw : series_apply (fun x => flatten x k) vs = .ok ws)
    (hap : (agol == p) = false) :
    (FieldConfig.init agol (some sf) al FieldConfig.date none none true
      = .ok ⟨agol, some sf, al, FieldConfig.date, none, none, true⟩)
    ∧ ∃ out : DF,
        derive_and_drop [⟨agol, some sf, al, FieldConfig.date, none, none, true⟩] df
          = .ok out
        ∧ out.getCol agol = some ws
        ∧ p ∉ out.columns := by
  constructor
  · unfold FieldConfig.init
    rw [if_neg (show ¬(FieldConfig.date ∉ [FieldConfig.text, FieldConfig.integer,
        FieldConfig.date, FieldConfig.static, FieldConfig.composite,
        FieldConfig.float]) by decide),
      if_neg (show ¬(FieldConfig.date = FieldConfig.static
        ∧ (none : Option Value).isNone = true) by decide),
      if_neg (show ¬(FieldConfig.date ≠ FieldConfig.static
        ∧ (none : Option Value).isSome = true) by decide),
      if_neg (show ¬(FieldConfig.date = FieldConfig.composite
        ∧ (none : Option (List FmtPart)).isNone = true) by decide),
      if_neg (show ¬(FieldConfig.date ≠ FieldConfig.composite
        ∧ (none : Option (List FmtPart)).isSome = true) by decide)]
    simp only
    rw [if_neg (by simp [hdot])]
  · have hpmem : p ∈ df.columns := DF.mem_columns_of_getCol_some hcol
    have hpset : p ∈ (df.setCol agol ws).columns := DF.mem_columns_setCol agol ws hpmem
    have hany : (df.setCol agol ws).cols.any (fun c => c.1 == p) = true :=
      (any_beq_iff_mem_map _ p).mpr hpset
    have hdrop : DF.dropCols (df.setCol agol ws) [p]
        = .ok ⟨(df.setCol agol ws).cols.filter (fun c => !([p].contains c.1))⟩ := by
      unfold DF.dropCols
      rw [if_pos (by simp [hany])]
    refine ⟨⟨(df.setCol agol ws).cols.filter (fun c => !([p].contains c.1))⟩, ?_, ?_, ?_⟩
    · unfold derive_and_drop derive_all
      rw [derive_config_flatten_date df [] agol sf al p k rest vs ws hsplit hcol hw,
        except_bind_ok]
      unfold derive_all
      rw [except_bind_ok]
      unfold drop_step
      simp only [List.nil_append]
      rw [if_pos (show ([p] : List String).length > 0 from Nat.one_pos)]
      exact hdrop
    · rw [DF.getCol_mk,
        find_filter_of_not_contains agol [p] _
          (by rw [List.contains_cons, List.contains_nil, Bool.or_false]; exact hap),
        ← DF.getCol_mk]
      exact DF.getCol_setCol_self df agol ws
    · rw [DF.columns_mk]
      exact not_mem_columns_filter p [p] _ (by simp)

/-- C10 witness: the path `A.B.C` — construction succeeds, the parent
column `A` is read, the child key `B` is extracted, the third segment `C`
is ignored, and `A` is dropped — via `flatten_multidot_spec`. -/
theorem flatten_multidot_spec_witness :
    (FieldConfig.init "OUT" (some "A.B.C") "al" FieldConfig.date none none true
      = .ok ⟨"OUT", some "A.B.C", "al", FieldConfig.date, none, none, true⟩)
    ∧ ∃ out : DF,
        derive_and_drop [⟨"OUT", some "A.B.C", "al", FieldConfig.date, none, none, true⟩]
            ⟨[("A", [.vDict [("B", .vStr "X")]])]⟩
          = .ok out
        ∧ out.getCol "OUT" = some [.vStr "X"]
        ∧ "A" ∉ out.columns :=
  flatten_multidot_spec "A.B.C" "A" "B" "al" "OUT" ["C"]
    ⟨[("A", [.vDict [("B", .vStr "X")]])]⟩
    [.vDict [("B", .vStr "X")]] [.vStr "X"]
    rfl ((String.contains_iff "A.B.C" '.').mpr (by decide)) rfl rfl rfl

/-- C8: when two descriptors flatten children of the same parent column,
the derive loop produces both child output columns first and the parent is
removed exactly once afterwards, without error: the parent is absent from
the resulting table while both derived columns are present with their
flattened values. -/
theorem flatten_same_parent_spec (df : DF) (vs ws1 ws2 : List Value)
    (p k1 k2 o1 o2 s1 s2 al1 al2 : String) (r1 r2 : List String)
    (h1 : pySplit s1 '.' = p :: k1 :: r1)
    (h2 : pySplit s2 '.' = p :: k2 :: r2)
    (hcol : df.getCol p = some vs)
    (hw1 : series_apply (fun x => flatten x k1) vs = .ok ws1)
    (hw2 : series_apply (fun x => flatten x k2) vs = .ok ws2)
    (ho1p : (o1 == p) = false) (ho2p : (o2 == p) = false)
    (ho12 : (o1 == o2) = false) :
    ∃ out : DF,
      derive_and_drop
          [⟨o1, some s1, al1, FieldConfig.date, none, none, true⟩,
           ⟨o2, some s2, al2, FieldConfig.date, none, none, true⟩] df
        = .ok out
      ∧ p ∉ out.columns
      ∧ out.getCol o1 = some ws1
      ∧ out.getCol o2 = some ws2 := by
  have hpo1 : (p == o1) = false := by
    rw [beq_eq_false_iff_ne] at ho1p ⊢
    exact fun h => ho1p h.symm
  have hcol2 : (df.setCol o1 ws1).getCol p = some vs := by
    rw [DF.getCol_setCol_ne df ws1 hpo1]
    exact hcol
  have hstep1 := derive_config_flatten_date df [] o1 s1 al1 p k1 r1 vs ws1 h1 hcol hw1
  have hstep2 := derive_config_flatten_date (df.setCol o1 ws1) [p] o2 s2 al2 p k2 r2
    vs ws2 h2 hcol2 hw2
  have hpmem : p ∈ df.columns := DF.mem_columns_of_getCol_some hcol
  have hpset : p ∈ ((df.setCol o1 ws1).setCol o2 ws2).columns :=
    DF.mem_columns_setCol o2 ws2 (DF.mem_columns_setCol o1 ws1 hpmem)
  have hany : ((df.setCol o1 ws1).setCol o2 ws2).cols.any (fun c => c.1 == p) = true :=
    (any_beq_iff_mem_map _ p).mpr hpset
  have hdrop : DF.dropCols ((df.setCol o1 ws1).setCol o2 ws2) [p, p]
      = .ok ⟨((df.setCol o1 ws1).setCol o2 ws2).cols.filter
          (fun c => !([p, p].contains c.1))⟩ := by
    unfold DF.dropCols
    rw [if_pos (by simp [hany])]
  refine ⟨⟨((df.setCol o1 ws1).setCol o2 ws2).cols.filter
      (fun c => !([p, p].contains c.1))⟩, ?_, ?_, ?_, ?_⟩
  · unfold derive_and_drop derive_all
    rw [hstep1, except_bind_ok]
    unfold derive_all
    rw [List.nil_append]
    rw [hstep2, except_bind_ok]
    unfold derive_all
    rw [except_bind_ok]
    unfold drop_step
    simp only
    rw [show ([p] ++ [p] : List String) = [p, p] from rfl]
    rw [if_pos (show ([p, p] : List String).length > 0 from Nat.succ_pos 1)]
    exact hdrop
  · rw [DF.columns_mk]
    exact not_mem_columns_filter p [p, p] _ (by simp)
  · rw [DF.getCol_mk,
      find_filter_of_not_contains o1 [p, p] _
        (by rw [List.contains_cons, List.contains_cons, List.contains_nil, ho1p]; rfl),
      ← DF.getCol_mk, DF.getCol_setCol_ne _ ws2 ho12]
    exact DF.getCol_setCol_self df o1 ws1
  · rw [DF.getCol_mk,
      find_filter_of_not_contains o2 [p, p] _
        (by rw [List.contains_cons, List.contains_cons, List.contains_nil, ho2p]; rfl),
      ← DF.getCol_mk]
    exact DF.getCol_setCol_self (df.setCol o1 ws1) o2 ws2

/-- C8 witness: one parent column hosting two child flattenings — both
output columns are derived and the parent is dropped once, without error —
via `flatten_same_parent_spec`. -/
theorem flatten_same_parent_spec_witness :
    ∃ out : DF,
      derive_and_drop
          [⟨"o1", some "P.k1", "al1", FieldConfig.date, none, none, true⟩,
           ⟨"o2", some "P.k2", "al2", FieldConfig.date, none, none, true⟩]
          ⟨[("P", [.vDict [("k1", .vStr "a"), ("k2", .vStr "b")]])]⟩
        = .ok out
      ∧ "P" ∉ out.columns
      ∧ out.getCol "o1" = some [.vStr "a"]
      ∧ out.getCol "o2" = some [.vStr "b"] :=
  flatten_same_parent_spec
    ⟨[("P", [.vDict [("k1", .vStr "a"), ("k2", .vStr "b")]])]⟩
    [.vDict [("k1", .vStr "a"), ("k2", .vStr "b")]] [.vStr "a"] [.vStr "b"]
    "P" "k1" "k2" "o1" "o2" "P.k1" "P.k2" "al1" "al2" [] []
    rfl rfl rfl rfl rfl rfl rfl rfl

end DeqTanks
